import Mathlib

/-!
Shallow embedding of the `ocn-common` contracts and trace modules
(`src/ocn_common/contracts.py`, `src/ocn_common/trace.py`).

JSON values, the filesystem, the `jsonschema` library (`json.loads`,
`Draft202012Validator.iter_errors`) and the two caches of
`SchemaLoader`/`ContractValidator` are modelled explicitly; stateful
Python code becomes explicit state passing over `St`, and raised
`ContractValidationError`s become `Except CVError`.  Filesystem reads
are counted in `St.ioReads` so that the caching/IO claims are statable.
-/

/-- JSON values, as produced by Python's `json.loads`. -/
inductive Json where
  | null
  | bool (b : Bool)
  | num (n : Int)
  | str (s : String)
  | arr (elems : List Json)
  | obj (fields : List (String × Json))

/-- One `jsonschema.ValidationError` as yielded by `iter_errors`: its
`path` elements (already rendered with `str`), its `message`, and its
`schema_path` elements. -/
structure VError where
  path : List String
  message : String
  schemaPath : List String

/-- The external Python environment used by `contracts.py`: `json.loads`
(returning a decode-error message on failure) and the compiled
`Draft202012Validator`'s `iter_errors` (schema document, instance ↦
list of violations, in the order the validator yields them).
`validator.validate(instance)` raises the first of these errors when the
list is nonempty.  Theorems quantify over this environment. -/
structure PyEnv where
  loads : String → Except String Json
  iterErrors : Json → Json → List VError

/-- Content found at a schema path: either a document that parses as JSON
and passes the draft 2020-12 meta-schema self-check, or content whose
`json.load`/`check_schema` fails with the given message. -/
inductive FileContent where
  | valid (doc : Json)
  | invalid (msg : String)

/-- The filesystem: `read` models `open` + `json.load` + `check_schema` on
one path (`none` = `FileNotFoundError`); `glob dir pat` models
`Path(dir).exists()` (`none` = absent) and `Path(dir).glob(pat)` (the
matching file names). -/
structure FileSys where
  read : String → Option FileContent
  glob : String → String → Option (List String)

/-- `ContractValidationError` instances, one constructor per raise site in
`contracts.py`; `unexpected` wraps an inner `ContractValidationError`
that was caught by an `except Exception` handler and re-raised as
`f"Unexpected validation error: {e}"`. -/
inductive CVError where
  | invalidSchemaAt (path : String) (msg : String)
  | schemaNotFound (path : String)
  | unknownSchemaType (schema_type : String)
  | invalidJson (msg : String)
  | validationFailed (schema_name : String) (msg : String)
  | validationFailedCE (type_name : String) (msg : String)
  | unknownCloudEventType (type_name : String)
  | unexpected (inner : CVError)

/-- The rendered message `str(e)` of a `ContractValidationError`. -/
def CVError.message : CVError → String
  | .invalidSchemaAt p m => "Invalid schema at " ++ p ++ ": " ++ m
  | .schemaNotFound p => "Schema not found at " ++ p
  | .unknownSchemaType t => "Unknown schema type: " ++ t
  | .invalidJson m => "Invalid JSON payload: " ++ m
  | .validationFailed n m => "Validation failed for schema '" ++ n ++ "': " ++ m
  | .validationFailedCE t m => "Validation failed for CloudEvent type '" ++ t ++ "': " ++ m
  | .unknownCloudEventType t => "Unknown CloudEvent type: " ++ t
  | .unexpected e => "Unexpected validation error: " ++ e.message

/-- Mutable state of one `SchemaLoader`/`ContractValidator` pair:
`SchemaLoader._schemas_cache`, `ContractValidator._validators_cache`
(a validator is compiled one-to-one from its schema document, so the
cache stores the document), and an instrumentation counter of
filesystem reads (`open` calls). -/
structure St where
  schemasCache : List (String × Json)
  validatorsCache : List (String × Json)
  ioReads : Nat

/-- A fresh loader/validator state: both caches empty, no reads yet. -/
def St.init : St := ⟨[], [], 0⟩

/-- Lookup in an association list modelling a Python `dict.get`. -/
def Assoc.find : List (String × α) → String → Option α
  | [], _ => none
  | (k, v) :: rest, key => if k = key then some v else Assoc.find rest key

/-- `SchemaLoader._load_schema`: opens `schema_path` (counted as one
filesystem read), parses it and meta-checks it; `FileNotFoundError`
becomes `Schema not found`, a parse or meta-schema failure becomes
`Invalid schema at`. -/
def load_schema (fs : FileSys) (schema_path : String) (st : St) :
    Except CVError Json × St :=
  match fs.read schema_path with
  | some (.valid doc) => (.ok doc, { st with ioReads := st.ioReads + 1 })
  | some (.invalid msg) =>
    (.error (.invalidSchemaAt schema_path msg), { st with ioReads := st.ioReads + 1 })
  | none => (.error (.schemaNotFound schema_path), { st with ioReads := st.ioReads + 1 })

/-- `SchemaLoader.get_schema`: checks the cache under key
`f"{schema_type}/{schema_name}"`; on a miss resolves the path for
`mandates`/`events` (any other type raises `Unknown schema type`),
loads, and caches only on success. -/
def get_schema (fs : FileSys) (base schema_name schema_type : String) (st : St) :
    Except CVError Json × St :=
  match Assoc.find st.schemasCache (schema_type ++ "/" ++ schema_name) with
  | some doc => (.ok doc, st)
  | none =>
    if schema_type = "mandates" then
      match load_schema fs (base ++ "/common/mandates/" ++ schema_name ++ ".schema.json") st with
      | (.ok doc, st₁) =>
        (.ok doc,
         { st₁ with schemasCache := (schema_type ++ "/" ++ schema_name, doc) :: st₁.schemasCache })
      | (.error e, st₁) => (.error e, st₁)
    else if schema_type = "events" then
      match load_schema fs (base ++ "/common/events/v1/" ++ schema_name ++ ".schema.json") st with
      | (.ok doc, st₁) =>
        (.ok doc,
         { st₁ with schemasCache := (schema_type ++ "/" ++ schema_name, doc) :: st₁.schemasCache })
      | (.error e, st₁) => (.error e, st₁)
    else (.error (.unknownSchemaType schema_type), st)

/-- `Path(f).stem`: the file name without its last suffix
(`"x.schema.json"` ↦ `"x.schema"`). -/
def stem (fname : String) : String :=
  let parts := fname.splitOn "."
  if parts.length ≤ 1 then fname else String.intercalate "." parts.dropLast

/-- `SchemaLoader.list_available_schemas`: scans
`common/mandates` and `common/events/v1` for `*.schema.json` files and
returns their stems (the `"mandates"` and `"events"` lists of the
returned dict); an absent directory contributes an empty list. -/
def list_available_schemas (fs : FileSys) (base : String) :
    List String × List String :=
  let mandates :=
    match fs.glob (base ++ "/common/mandates") "*.schema.json" with
    | none => []
    | some files => files.map stem
  let events :=
    match fs.glob (base ++ "/common/events/v1") "*.schema.json" with
    | none => []
    | some files => files.map stem
  (mandates, events)

/-- `ContractValidator._get_validator`: checks the validator cache under
`f"{schema_type}/{schema_name}"`; on a miss calls `get_schema`, compiles
(`Draft202012Validator(schema)`, modelled by the document itself), and
caches only on success; loader failures propagate unchanged. -/
def get_validator (fs : FileSys) (base schema_name schema_type : String) (st : St) :
    Except CVError Json × St :=
  match Assoc.find st.validatorsCache (schema_type ++ "/" ++ schema_name) with
  | some v => (.ok v, st)
  | none =>
    match get_schema fs base schema_name schema_type st with
    | (.ok schema, st₁) =>
      (.ok schema,
       { st₁ with
           validatorsCache := (schema_type ++ "/" ++ schema_name, schema) :: st₁.validatorsCache })
    | (.error e, st₁) => (.error e, st₁)

/-- A payload argument of type `Union[Dict[str, Any], str]`: either an
already-parsed structure or raw JSON text. -/
inductive PyInput where
  | obj (j : Json)
  | str (s : String)

/-- The `if isinstance(payload, str): payload = json.loads(payload)`
prelude shared by the three facade operations. -/
def parseInput (env : PyEnv) : PyInput → Except String Json
  | .obj j => .ok j
  | .str s => env.loads s

/-- `ContractValidator.validate_json`: parses a string payload
(`json.JSONDecodeError` ↦ `Invalid JSON payload`), obtains the
`mandates` validator (a `ContractValidationError` from the loader is
caught by `except Exception` and re-raised wrapped), validates
(`jsonschema.ValidationError` for the first violation ↦
`Validation failed for schema '...'` with that violation's message),
and returns `True` when there is no violation. -/
def validate_json (env : PyEnv) (fs : FileSys) (base : String)
    (payload : PyInput) (schema_name : String) (st : St) :
    Except CVError Bool × St :=
  match parseInput env payload with
  | .error m => (.error (.invalidJson m), st)
  | .ok j =>
    match get_validator fs base schema_name "mandates" st with
    | (.error e, st₁) => (.error (.unexpected e), st₁)
    | (.ok schema, st₁) =>
      match env.iterErrors schema j with
      | [] => (.ok true, st₁)
      | e :: _ => (.error (.validationFailed schema_name e.message), st₁)

/-- The static CloudEvent type registry `type_to_schema` of
`ContractValidator.validate_cloudevent`, verbatim from the source. -/
def type_to_schema : List (String × String) :=
  [("ocn.orca.decision.v1", "orca.decision.v1"),
   ("ocn.orca.explanation.v1", "orca.explanation.v1"),
   ("ocn.weave.audit.v1", "weave.audit.v1")]

/-- `ContractValidator.validate_cloudevent`: parses a string payload,
resolves `type_name` through `type_to_schema` (`None` makes the body
raise `Unknown CloudEvent type`, which the trailing `except Exception`
catches and re-raises wrapped as `Unexpected validation error`), then
obtains the `events` validator and validates with the fail-fast
contract, the failure message scoped to the wire type. -/
def validate_cloudevent (env : PyEnv) (fs : FileSys) (base : String)
    (payload : PyInput) (type_name : String) (st : St) :
    Except CVError Bool × St :=
  match parseInput env payload with
  | .error m => (.error (.invalidJson m), st)
  | .ok j =>
    match Assoc.find type_to_schema type_name with
    | none => (.error (.unexpected (.unknownCloudEventType type_name)), st)
    | some schema_name =>
      match get_validator fs base schema_name "events" st with
      | (.error e, st₁) => (.error (.unexpected e), st₁)
      | (.ok schema, st₁) =>
        match env.iterErrors schema j with
        | [] => (.ok true, st₁)
        | e :: _ => (.error (.validationFailedCE type_name e.message), st₁)

/-- One entry of the list returned by
`ContractValidator.get_validation_errors`: the dict
`{"path": ..., "message": ..., "schema_path": ...}`. -/
structure ErrRecord where
  path : String
  message : String
  schema_path : String

/-- `ContractValidator.get_validation_errors`: parses a string payload
(a decode failure returns the one-element synthetic list, it does not
raise), obtains the validator (any exception there is caught by
`except Exception` and returned as a one-element
`Validation error: ...` list), and otherwise collects every violation
from `iter_errors` with its dotted path, message and dotted schema
path. -/
def get_validation_errors (env : PyEnv) (fs : FileSys) (base : String)
    (payload : PyInput) (schema_name schema_type : String) (st : St) :
    List ErrRecord × St :=
  match parseInput env payload with
  | .error m => ([⟨"", "Invalid JSON: " ++ m, ""⟩], st)
  | .ok j =>
    match get_validator fs base schema_name schema_type st with
    | (.error e, st₁) => ([⟨"", "Validation error: " ++ e.message, ""⟩], st₁)
    | (.ok schema, st₁) =>
      ((env.iterErrors schema j).map fun e =>
        ⟨String.intercalate "." e.path, e.message,
         String.intercalate "." e.schemaPath⟩, st₁)

/-- A Python `Dict[str, Any]` with JSON-like values, as an association
list in insertion order with unique keys. -/
abbrev PyDict := List (String × Json)

/-- Python `d[k] = v`: update in place if the key is present (keeping
its position), otherwise append at the end. -/
def dictSet : PyDict → String → Json → PyDict
  | [], k, v => [(k, v)]
  | (k₀, v₀) :: rest, k, v =>
    if k₀ = k then (k, v) :: rest else (k₀, v₀) :: dictSet rest k v

/-- `trace.inject_trace_id_ce`: copies the envelope
(`envelope.copy()`), sets `modified_envelope['subject'] = trace_id` on
the copy, and returns it.  The second component is the caller's
`envelope` object after the call: because the assignment targets the
copy, it is the unchanged input. -/
def inject_trace_id_ce (envelope : PyDict) (trace_id : String) :
    PyDict × PyDict :=
  let modified_envelope := envelope
  let modified_envelope := dictSet modified_envelope "subject" (.str trace_id)
  (modified_envelope, envelope)

/-- A small schema document used as concrete test data. -/
def sampleDoc : Json := .obj [("type", .str "object")]

/-- A concrete filesystem holding one valid mandate schema. -/
def sampleFs : FileSys :=
  { read := fun p =>
      if p = "base/common/mandates/intent_mandate.schema.json" then some (.valid sampleDoc)
      else none,
    glob := fun _ _ => none }

/-- A concrete Python environment: only the text `"null"` parses, and a
payload conforms exactly when it is the empty object. -/
def sampleEnv : PyEnv :=
  { loads := fun s => if s = "null" then .ok .null else .error "Expecting value",
    iterErrors := fun _ j =>
      match j with
      | .obj [] => []
      | _ => [⟨["field"], "is required", ["required"]⟩] }

/-- State after one successful `get_schema` for `intent_mandate`. -/
def sampleStOk : St := ⟨[("mandates/intent_mandate", sampleDoc)], [], 1⟩

/-- State after one successful `_get_validator` for `intent_mandate`. -/
def sampleStV : St :=
  ⟨[("mandates/intent_mandate", sampleDoc)], [("mandates/intent_mandate", sampleDoc)], 1⟩

/-- State after one failed `get_schema` (one read, nothing cached). -/
def sampleStErr : St := ⟨[], [], 1⟩

/-- A filesystem whose mandates tree contains a nested schema file, so a
schema name containing a slash loads successfully. -/
def poisonFs : FileSys :=
  { read := fun p =>
      if p = "base/common/mandates/evil/x.schema.json" then some (.valid sampleDoc) else none,
    glob := fun _ _ => none }

/-- The reachable state after caching the slash-containing schema name
`evil/x` under the key `mandates/evil/x`. -/
def poisonSt : St := ⟨[("mandates/evil/x", sampleDoc)], [], 1⟩

/-- A filesystem where the mandates directory is absent and the events
directory exists but holds no schema file. -/
def emptyDirsFs : FileSys :=
  { read := fun _ => none,
    glob := fun d _ => if d = "base/common/events/v1" then some [] else none }

/-- A filesystem whose mandates directory holds one schema file. -/
def stockedFs : FileSys :=
  { read := fun _ => none,
    glob := fun d _ =>
      if d = "base/common/mandates" then some ["intent_mandate.schema.json"] else none }

/-- A concrete CloudEvent envelope. -/
def sampleEnvelope : PyDict :=
  [("specversion", .str "1.0"), ("id", .str "event-123"),
   ("source", .str "https://example.com"), ("type", .str "ocn.orca.decision.v1")]

lemma Assoc.find_cons_self (k : String) (v : α) (l : List (String × α)) :
    Assoc.find ((k, v) :: l) k = some v := by
  simp [Assoc.find]

lemma load_schema_snd (fs : FileSys) (p : String) (st : St) :
    (load_schema fs p st).2 = { st with ioReads := st.ioReads + 1 } := by
  unfold load_schema
  split <;> rfl

lemma load_schema_read_valid (fs : FileSys) (p : String) (st : St) (d : Json)
    (h : fs.read p = some (.valid d)) :
    load_schema fs p st = (.ok d, { st with ioReads := st.ioReads + 1 }) := by
  unfold load_schema
  rw [h]

lemma load_schema_read_invalid (fs : FileSys) (p : String) (st : St) (m : String)
    (h : fs.read p = some (.invalid m)) :
    load_schema fs p st =
      (.error (.invalidSchemaAt p m), { st with ioReads := st.ioReads + 1 }) := by
  unfold load_schema
  rw [h]

lemma load_schema_read_none (fs : FileSys) (p : String) (st : St)
    (h : fs.read p = none) :
    load_schema fs p st =
      (.error (.schemaNotFound p), { st with ioReads := st.ioReads + 1 }) := by
  unfold load_schema
  rw [h]

lemma get_schema_hit (fs : FileSys) (b n t : String) (st : St) (d : Json)
    (h : Assoc.find st.schemasCache (t ++ "/" ++ n) = some d) :
    get_schema fs b n t st = (.ok d, st) := by
  unfold get_schema
  rw [h]

lemma get_schema_miss_mandates (fs : FileSys) (b n : String) (st : St)
    (h : Assoc.find st.schemasCache ("mandates" ++ "/" ++ n) = none) :
    get_schema fs b n "mandates" st =
      match load_schema fs (b ++ "/common/mandates/" ++ n ++ ".schema.json") st with
      | (.ok doc, st₁) =>
        (.ok doc,
         { st₁ with schemasCache := ("mandates" ++ "/" ++ n, doc) :: st₁.schemasCache })
      | (.error e, st₁) => (.error e, st₁) := by
  unfold get_schema
  rw [h]
  rfl

lemma get_schema_miss_events (fs : FileSys) (b n : String) (st : St)
    (h : Assoc.find st.schemasCache ("events" ++ "/" ++ n) = none) :
    get_schema fs b n "events" st =
      match load_schema fs (b ++ "/common/events/v1/" ++ n ++ ".schema.json") st with
      | (.ok doc, st₁) =>
        (.ok doc,
         { st₁ with schemasCache := ("events" ++ "/" ++ n, doc) :: st₁.schemasCache })
      | (.error e, st₁) => (.error e, st₁) := by
  unfold get_schema
  rw [h]
  rfl

lemma get_schema_bogus (fs : FileSys) (b n t : String) (st : St)
    (h : Assoc.find st.schemasCache (t ++ "/" ++ n) = none)
    (h1 : t ≠ "mandates") (h2 : t ≠ "events") :
    get_schema fs b n t st = (.error (.unknownSchemaType t), st) := by
  unfold get_schema
  rw [h]
  simp [h1, h2]

lemma get_schema_ok_spec (fs : FileSys) (b n t : String) (st : St) (d : Json) (st₁ : St)
    (h : get_schema fs b n t st = (.ok d, st₁)) :
    Assoc.find st₁.schemasCache (t ++ "/" ++ n) = some d ∧
    st₁.validatorsCache = st.validatorsCache ∧
    st₁.ioReads ≤ st.ioReads + 1 := by
  cases hfind : Assoc.find st.schemasCache (t ++ "/" ++ n) with
  | some d₀ =>
    rw [get_schema_hit fs b n t st d₀ hfind] at h
    simp only [Prod.mk.injEq, Except.ok.injEq] at h
    obtain ⟨rfl, rfl⟩ := h
    exact ⟨hfind, rfl, Nat.le_succ _⟩
  | none =>
    by_cases ht1 : t = "mandates"
    · subst ht1
      rw [get_schema_miss_mandates fs b n st hfind] at h
      cases hr : fs.read (b ++ "/common/mandates/" ++ n ++ ".schema.json") with
      | some c =>
        cases c with
        | valid d₀ =>
          rw [load_schema_read_valid fs _ st d₀ hr] at h
          simp only [Prod.mk.injEq, Except.ok.injEq] at h
          obtain ⟨rfl, rfl⟩ := h
          exact ⟨Assoc.find_cons_self _ _ _, rfl, Nat.le_refl _⟩
        | invalid m =>
          rw [load_schema_read_invalid fs _ st m hr] at h
          simp at h
      | none =>
        rw [load_schema_read_none fs _ st hr] at h
        simp at h
    · by_cases ht2 : t = "events"
      · subst ht2
        rw [get_schema_miss_events fs b n st hfind] at h
        cases hr : fs.read (b ++ "/common/events/v1/" ++ n ++ ".schema.json") with
        | some c =>
          cases c with
          | valid d₀ =>
            rw [load_schema_read_valid fs _ st d₀ hr] at h
            simp only [Prod.mk.injEq, Except.ok.injEq] at h
            obtain ⟨rfl, rfl⟩ := h
            exact ⟨Assoc.find_cons_self _ _ _, rfl, Nat.le_refl _⟩
          | invalid m =>
            rw [load_schema_read_invalid fs _ st m hr] at h
            simp at h
        | none =>
          rw [load_schema_read_none fs _ st hr] at h
          simp at h
      · rw [get_schema_bogus fs b n t st hfind ht1 ht2] at h
        simp at h

lemma get_schema_error_spec (fs : FileSys) (b n t : String) (st : St) (e : CVError) (st₁ : St)
    (h : get_schema fs b n t st = (.error e, st₁)) :
    st₁.schemasCache = st.schemasCache ∧
    st₁.validatorsCache = st.validatorsCache ∧
    ∃ st₂, get_schema fs b n t st₁ = (.error e, st₂) ∧
      st₂.ioReads + st.ioReads = st₁.ioReads + st₁.ioReads ∧
      st₂.schemasCache = st.schemasCache := by
  cases hfind : Assoc.find st.schemasCache (t ++ "/" ++ n) with
  | some d₀ =>
    rw [get_schema_hit fs b n t st d₀ hfind] at h
    simp at h
  | none =>
    by_cases ht1 : t = "mandates"
    · subst ht1
      rw [get_schema_miss_mandates fs b n st hfind] at h
      cases hr : fs.read (b ++ "/common/mandates/" ++ n ++ ".schema.json") with
      | some c =>
        cases c with
        | valid d₀ =>
          rw [load_schema_read_valid fs _ st d₀ hr] at h
          simp at h
        | invalid m =>
          rw [load_schema_read_invalid fs _ st m hr] at h
          simp only [Prod.mk.injEq, Except.error.injEq] at h
          obtain ⟨rfl, rfl⟩ := h
          refine ⟨rfl, rfl, { st with ioReads := st.ioReads + 1 + 1 }, ?_,
            by show st.ioReads + 1 + 1 + st.ioReads = st.ioReads + 1 + (st.ioReads + 1); omega, rfl⟩
          rw [get_schema_miss_mandates fs b n { st with ioReads := st.ioReads + 1 } hfind,
            load_schema_read_invalid fs _ { st with ioReads := st.ioReads + 1 } m hr]
      | none =>
        rw [load_schema_read_none fs _ st hr] at h
        simp only [Prod.mk.injEq, Except.error.injEq] at h
        obtain ⟨rfl, rfl⟩ := h
        refine ⟨rfl, rfl, { st with ioReads := st.ioReads + 1 + 1 }, ?_,
          by show st.ioReads + 1 + 1 + st.ioReads = st.ioReads + 1 + (st.ioReads + 1); omega, rfl⟩
        rw [get_schema_miss_mandates fs b n { st with ioReads := st.ioReads + 1 } hfind,
          load_schema_read_none fs _ { st with ioReads := st.ioReads + 1 } hr]
    · by_cases ht2 : t = "events"
      · subst ht2
        rw [get_schema_miss_events fs b n st hfind] at h
        cases hr : fs.read (b ++ "/common/events/v1/" ++ n ++ ".schema.json") with
        | some c =>
          cases c with
          | valid d₀ =>
            rw [load_schema_read_valid fs _ st d₀ hr] at h
            simp at h
          | invalid m =>
            rw [load_schema_read_invalid fs _ st m hr] at h
            simp only [Prod.mk.injEq, Except.error.injEq] at h
            obtain ⟨rfl, rfl⟩ := h
            refine ⟨rfl, rfl, { st with ioReads := st.ioReads + 1 + 1 }, ?_,
              by show st.ioReads + 1 + 1 + st.ioReads = st.ioReads + 1 + (st.ioReads + 1); omega, rfl⟩
            rw [get_schema_miss_events fs b n { st with ioReads := st.ioReads + 1 } hfind,
              load_schema_read_invalid fs _ { st with ioReads := st.ioReads + 1 } m hr]
        | none =>
          rw [load_schema_read_none fs _ st hr] at h
          simp only [Prod.mk.injEq, Except.error.injEq] at h
          obtain ⟨rfl, rfl⟩ := h
          refine ⟨rfl, rfl, { st with ioReads := st.ioReads + 1 + 1 }, ?_,
            by show st.ioReads + 1 + 1 + st.ioReads = st.ioReads + 1 + (st.ioReads + 1); omega, rfl⟩
          rw [get_schema_miss_events fs b n { st with ioReads := st.ioReads + 1 } hfind,
            load_schema_read_none fs _ { st with ioReads := st.ioReads + 1 } hr]
      · rw [get_schema_bogus fs b n t st hfind ht1 ht2] at h
        simp only [Prod.mk.injEq, Except.error.injEq] at h
        obtain ⟨rfl, rfl⟩ := h
        exact ⟨rfl, rfl, st, get_schema_bogus fs b n t st hfind ht1 ht2, rfl, rfl⟩

lemma get_validator_hit (fs : FileSys) (b n t : String) (st : St) (v : Json)
    (h : Assoc.find st.validatorsCache (t ++ "/" ++ n) = some v) :
    get_validator fs b n t st = (.ok v, st) := by
  unfold get_validator
  rw [h]

lemma get_validator_miss (fs : FileSys) (b n t : String) (st : St)
    (h : Assoc.find st.validatorsCache (t ++ "/" ++ n) = none) :
    get_validator fs b n t st =
      match get_schema fs b n t st with
      | (.ok schema, st₁) =>
        (.ok schema,
         { st₁ with validatorsCache := (t ++ "/" ++ n, schema) :: st₁.validatorsCache })
      | (.error e, st₁) => (.error e, st₁) := by
  unfold get_validator
  rw [h]

lemma get_validator_ok_spec (fs : FileSys) (b n t : String) (st : St) (v : Json) (st₁ : St)
    (h : get_validator fs b n t st = (.ok v, st₁)) :
    Assoc.find st₁.validatorsCache (t ++ "/" ++ n) = some v ∧
    st₁.ioReads ≤ st.ioReads + 1 := by
  cases hfind : Assoc.find st.validatorsCache (t ++ "/" ++ n) with
  | some v₀ =>
    rw [get_validator_hit fs b n t st v₀ hfind] at h
    simp only [Prod.mk.injEq, Except.ok.injEq] at h
    obtain ⟨rfl, rfl⟩ := h
    exact ⟨hfind, Nat.le_succ _⟩
  | none =>
    rw [get_validator_miss fs b n t st hfind] at h
    cases hg : get_schema fs b n t st with
    | mk res st₂ =>
      rw [hg] at h
      cases res with
      | ok schema =>
        simp only [Prod.mk.injEq, Except.ok.injEq] at h
        obtain ⟨rfl, rfl⟩ := h
        exact ⟨Assoc.find_cons_self _ _ _,
          (get_schema_ok_spec fs b n t st schema st₂ hg).2.2⟩
      | error e => simp at h

lemma get_validator_error_spec (fs : FileSys) (b n t : String) (st : St) (e : CVError)
    (st₁ : St) (h : get_validator fs b n t st = (.error e, st₁)) :
    st₁.schemasCache = st.schemasCache ∧
    st₁.validatorsCache = st.validatorsCache ∧
    ∃ st₂, get_validator fs b n t st₁ = (.error e, st₂) ∧
      st₂.ioReads + st.ioReads = st₁.ioReads + st₁.ioReads := by
  cases hfind : Assoc.find st.validatorsCache (t ++ "/" ++ n) with
  | some v₀ =>
    rw [get_validator_hit fs b n t st v₀ hfind] at h
    simp at h
  | none =>
    rw [get_validator_miss fs b n t st hfind] at h
    cases hg : get_schema fs b n t st with
    | mk res st₂ =>
      rw [hg] at h
      cases res with
      | ok schema => simp at h
      | error e₀ =>
        simp only [Prod.mk.injEq, Except.error.injEq] at h
        obtain ⟨he, hst⟩ := h
        subst he
        subst hst
        obtain ⟨hc, hv, st₃, hrerun, hio, hc₃⟩ := get_schema_error_spec fs b n t st e₀ st₂ hg
        refine ⟨hc, hv, st₃, ?_, hio⟩
        have hfind₂ : Assoc.find st₂.validatorsCache (t ++ "/" ++ n) = none := by
          rw [hv]; exact hfind
        rw [get_validator_miss fs b n t st₂ hfind₂, hrerun]

lemma get_schema_ok_rerun (fs : FileSys) (b n t : String) (st : St) (d : Json) (st₁ : St)
    (h : get_schema fs b n t st = (.ok d, st₁)) :
    get_schema fs b n t st₁ = (.ok d, st₁) :=
  get_schema_hit fs b n t st₁ d (get_schema_ok_spec fs b n t st d st₁ h).1

lemma get_validator_ok_rerun (fs : FileSys) (b n t : String) (st : St) (v : Json) (st₁ : St)
    (h : get_validator fs b n t st = (.ok v, st₁)) :
    get_validator fs b n t st₁ = (.ok v, st₁) :=
  get_validator_hit fs b n t st₁ v (get_validator_ok_spec fs b n t st v st₁ h).1

/-- C2: calling `get_schema` or `_get_validator` twice with the same
identifier is idempotent: after a successful first call the second call
returns the same document from the cache with the state unchanged (so
at most one filesystem read happens across both calls), while a failed
call leaves both caches unchanged and a repeated call fails identically,
re-attempting exactly as much filesystem I/O as the first. -/
theorem get_schema_get_validator_idempotent (fs : FileSys) (b n t : String) (st : St) :
    (∀ d st₁, get_schema fs b n t st = (.ok d, st₁) →
       get_schema fs b n t st₁ = (.ok d, st₁) ∧ st₁.ioReads ≤ st.ioReads + 1) ∧
    (∀ v st₁, get_validator fs b n t st = (.ok v, st₁) →
       get_validator fs b n t st₁ = (.ok v, st₁) ∧ st₁.ioReads ≤ st.ioReads + 1) ∧
    (∀ e st₁, get_schema fs b n t st = (.error e, st₁) →
       st₁.schemasCache = st.schemasCache ∧ st₁.validatorsCache = st.validatorsCache ∧
       ∃ st₂, get_schema fs b n t st₁ = (.error e, st₂) ∧
         st₂.ioReads + st.ioReads = st₁.ioReads + st₁.ioReads) ∧
    (∀ e st₁, get_validator fs b n t st = (.error e, st₁) →
       st₁.schemasCache = st.schemasCache ∧ st₁.validatorsCache = st.validatorsCache ∧
       ∃ st₂, get_validator fs b n t st₁ = (.error e, st₂) ∧
         st₂.ioReads + st.ioReads = st₁.ioReads + st₁.ioReads) := by
  refine ⟨?_, ?_, ?_, ?_⟩
  · intro d st₁ h
    exact ⟨get_schema_ok_rerun fs b n t st d st₁ h,
      (get_schema_ok_spec fs b n t st d st₁ h).2.2⟩
  · intro v st₁ h
    exact ⟨get_validator_ok_rerun fs b n t st v st₁ h,
      (get_validator_ok_spec fs b n t st v st₁ h).2⟩
  · intro e st₁ h
    obtain ⟨hc, hv, st₂, hrerun, hio, _⟩ := get_schema_error_spec fs b n t st e st₁ h
    exact ⟨hc, hv, st₂, hrerun, hio⟩
  · intro e st₁ h
    exact get_validator_error_spec fs b n t st e st₁ h

/-- C3 (amended): with the cache key for the requested identifier absent
from the schema cache — always the case for a fresh loader, and
whenever no previously cached schema name contains a slash — a category
outside `mandates`/`events` makes `get_schema` fail with the
`Unknown schema type` error and leaves the state untouched, so no
filesystem I/O is attempted. -/
theorem get_schema_unknown_category_no_io (fs : FileSys) (b n t : String) (st : St)
    (h1 : t ≠ "mandates") (h2 : t ≠ "events")
    (h3 : Assoc.find st.schemasCache (t ++ "/" ++ n) = none) :
    get_schema fs b n t st = (.error (.unknownSchemaType t), st) :=
  get_schema_bogus fs b n t st h3 h1 h2

/-- C4: a wire type with no entry in the `type_to_schema` registry makes
`validate_cloudevent` fail with the `Unknown CloudEvent type` error
(re-raised wrapped by the generic `except Exception` handler) on any
payload that parses, leaving the state untouched: no schema resolution
and no schema loading is attempted. -/
theorem validate_cloudevent_unknown_type (env : PyEnv) (fs : FileSys) (base : String)
    (payload : PyInput) (j : Json) (type_name : String) (st : St)
    (hp : parseInput env payload = .ok j)
    (ht : Assoc.find type_to_schema type_name = none) :
    validate_cloudevent env fs base payload type_name st =
      (.error (.unexpected (.unknownCloudEventType type_name)), st) := by
  unfold validate_cloudevent
  rw [hp, ht]

lemma validate_json_ok_of (env : PyEnv) (fs : FileSys) (base : String)
    (payload : PyInput) (j : Json) (schema_name : String) (st : St) (d : Json) (st₁ : St)
    (hp : parseInput env payload = .ok j)
    (hv : get_validator fs base schema_name "mandates" st = (.ok d, st₁))
    (he : env.iterErrors d j = []) :
    validate_json env fs base payload schema_name st = (.ok true, st₁) := by
  unfold validate_json
  rw [hp, hv]
  dsimp only
  rw [he]

lemma validate_json_err_of (env : PyEnv) (fs : FileSys) (base : String)
    (payload : PyInput) (j : Json) (schema_name : String) (st : St) (d : Json) (st₁ : St)
    (v : VError) (rest : List VError)
    (hp : parseInput env payload = .ok j)
    (hv : get_validator fs base schema_name "mandates" st = (.ok d, st₁))
    (he : env.iterErrors d j = v :: rest) :
    validate_json env fs base payload schema_name st =
      (.error (.validationFailed schema_name v.message), st₁) := by
  unfold validate_json
  rw [hp, hv]
  dsimp only
  rw [he]

/-- C5: when the mandate schema resolves, `validate_json` is fail-fast:
it returns `True` when `iter_errors` yields no violation, and otherwise
fails with `Validation failed for schema '<name>'` carrying the message
of the first violation only. -/
theorem validate_json_fail_fast (env : PyEnv) (fs : FileSys) (base : String)
    (payload : PyInput) (j : Json) (schema_name : String) (st : St) (d : Json) (st₁ : St)
    (hp : parseInput env payload = .ok j)
    (hv : get_validator fs base schema_name "mandates" st = (.ok d, st₁)) :
    (env.iterErrors d j = [] →
       validate_json env fs base payload schema_name st = (.ok true, st₁)) ∧
    ∀ v rest, env.iterErrors d j = v :: rest →
      validate_json env fs base payload schema_name st =
        (.error (.validationFailed schema_name v.message), st₁) :=
  ⟨fun he => validate_json_ok_of env fs base payload j schema_name st d st₁ hp hv he,
   fun v rest he =>
     validate_json_err_of env fs base payload j schema_name st d st₁ v rest hp hv he⟩

/-- C6: on input text that is not parseable JSON, `validate_json` and
`validate_cloudevent` both fail with `Invalid JSON payload`, while
`get_validation_errors` returns (it does not raise) the one-element
synthetic violation list describing the parse failure; no state is
touched. -/
theorem malformed_json_uniform (env : PyEnv) (fs : FileSys) (base : String)
    (s schema_name schema_type type_name : String) (st : St) (m : String)
    (hp : env.loads s = .error m) :
    validate_json env fs base (.str s) schema_name st = (.error (.invalidJson m), st) ∧
    validate_cloudevent env fs base (.str s) type_name st = (.error (.invalidJson m), st) ∧
    get_validation_errors env fs base (.str s) schema_name schema_type st =
      ([⟨"", "Invalid JSON: " ++ m, ""⟩], st) := by
  refine ⟨?_, ?_, ?_⟩
  · unfold validate_json
    simp only [parseInput]
    rw [hp]
  · unfold validate_cloudevent
    simp only [parseInput]
    rw [hp]
  · unfold get_validation_errors
    simp only [parseInput]
    rw [hp]

/-- C7: when the mandate schema resolves, the fail-fast and aggregating
modes agree: `validate_json` returns `True` exactly when
`get_validation_errors` returns the empty list, and the latter lists
every violation from `iter_errors` with its dotted JSON path, message
and dotted schema path. -/
theorem validate_json_iff_no_errors (env : PyEnv) (fs : FileSys) (base : String)
    (payload : PyInput) (j : Json) (schema_name : String) (st : St) (d : Json) (st₁ : St)
    (hp : parseInput env payload = .ok j)
    (hv : get_validator fs base schema_name "mandates" st = (.ok d, st₁)) :
    ((validate_json env fs base payload schema_name st).1 = .ok true ↔
      (get_validation_errors env fs base payload schema_name "mandates" st).1 = []) ∧
    (get_validation_errors env fs base payload schema_name "mandates" st).1 =
      (env.iterErrors d j).map (fun v =>
        ⟨String.intercalate "." v.path, v.message, String.intercalate "." v.schemaPath⟩) := by
  have hg : get_validation_errors env fs base payload schema_name "mandates" st =
      ((env.iterErrors d j).map (fun v =>
        ⟨String.intercalate "." v.path, v.message, String.intercalate "." v.schemaPath⟩),
       st₁) := by
    unfold get_validation_errors
    rw [hp, hv]
  refine ⟨?_, by rw [hg]⟩
  rw [hg]
  cases he : env.iterErrors d j with
  | nil =>
    rw [validate_json_ok_of env fs base payload j schema_name st d st₁ hp hv he]
    simp
  | cons v rest =>
    rw [validate_json_err_of env fs base payload j schema_name st d st₁ v rest hp hv he]
    simp

/-- C10: `get_validation_errors` always returns a list: a parse failure
becomes the one-element `Invalid JSON` list, any failure of validator
resolution (schema not found, invalid schema, unknown category) is
caught by `except Exception` and becomes the one-element
`Validation error` list, and otherwise the full violation list is
returned. -/
theorem get_validation_errors_total (env : PyEnv) (fs : FileSys) (base : String)
    (payload : PyInput) (schema_name schema_type : String) (st : St) :
    (∀ m, parseInput env payload = .error m →
       get_validation_errors env fs base payload schema_name schema_type st =
         ([⟨"", "Invalid JSON: " ++ m, ""⟩], st)) ∧
    (∀ j e st₁, parseInput env payload = .ok j →
       get_validator fs base schema_name schema_type st = (.error e, st₁) →
       get_validation_errors env fs base payload schema_name schema_type st =
         ([⟨"", "Validation error: " ++ e.message, ""⟩], st₁)) ∧
    (∀ j d st₁, parseInput env payload = .ok j →
       get_validator fs base schema_name schema_type st = (.ok d, st₁) →
       get_validation_errors env fs base payload schema_name schema_type st =
         ((env.iterErrors d j).map (fun v =>
            ⟨String.intercalate "." v.path, v.message, String.intercalate "." v.schemaPath⟩),
          st₁)) := by
  refine ⟨?_, ?_, ?_⟩
  · intro m hp
    unfold get_validation_errors
    rw [hp]
  · intro j e st₁ hp hv
    unfold get_validation_errors
    rw [hp, hv]
  · intro j d st₁ hp hv
    unfold get_validation_errors
    rw [hp, hv]

/-- C8: `list_available_schemas` enumerates, per category, the stems of
the `*.schema.json` files found in the resolved directory, and
contributes an empty list — not an error — when the directory is absent
or matches no file. -/
theorem list_available_schemas_enumerates (fs : FileSys) (base : String) :
    (fs.glob (base ++ "/common/mandates") "*.schema.json" = none →
       (list_available_schemas fs base).1 = []) ∧
    (∀ files, fs.glob (base ++ "/common/mandates") "*.schema.json" = some files →
       (list_available_schemas fs base).1 = files.map stem) ∧
    (fs.glob (base ++ "/common/events/v1") "*.schema.json" = none →
       (list_available_schemas fs base).2 = []) ∧
    (∀ files, fs.glob (base ++ "/common/events/v1") "*.schema.json" = some files →
       (list_available_schemas fs base).2 = files.map stem) := by
  refine ⟨?_, ?_, ?_, ?_⟩
  · intro h
    unfold list_available_schemas
    rw [h]
  · intro files h
    unfold list_available_schemas
    rw [h]
  · intro h
    unfold list_available_schemas
    rw [h]
  · intro files h
    unfold list_available_schemas
    rw [h]

lemma dictSet_find_self (d : PyDict) (k : String) (v : Json) :
    Assoc.find (dictSet d k v) k = some v := by
  induction d with
  | nil => simp [dictSet, Assoc.find]
  | cons hd tl ih =>
    obtain ⟨k₀, v₀⟩ := hd
    by_cases hk : k₀ = k
    · simp [dictSet, hk, Assoc.find]
    · simp [dictSet, hk, Assoc.find, ih]

lemma dictSet_find_other (d : PyDict) (k k₁ : String) (v : Json) (h : k₁ ≠ k) :
    Assoc.find (dictSet d k v) k₁ = Assoc.find d k₁ := by
  induction d with
  | nil =>
    simp only [dictSet, Assoc.find]
    rw [if_neg fun he => h he.symm]
  | cons hd tl ih =>
    obtain ⟨k₀, v₀⟩ := hd
    by_cases hk : k₀ = k
    · subst hk
      by_cases hk₁ : k₀ = k₁
      · exact absurd hk₁.symm h
      · simp [dictSet, Assoc.find, hk₁]
    · simp only [dictSet, if_neg hk]
      by_cases hk₁ : k₀ = k₁
      · simp [Assoc.find, hk₁]
      · simp [Assoc.find, hk₁, ih]

/-- C9: `inject_trace_id_ce` returns a fresh envelope whose `subject`
field is the trace ID and whose other top-level fields look up to the
same values as in the input, and the caller's envelope object is left
unchanged (the function copies rather than mutates). -/
theorem inject_trace_id_ce_frame (envelope : PyDict) (trace_id : String) :
    Assoc.find (inject_trace_id_ce envelope trace_id).1 "subject" = some (.str trace_id) ∧
    (∀ k, k ≠ "subject" →
       Assoc.find (inject_trace_id_ce envelope trace_id).1 k = Assoc.find envelope k) ∧
    (inject_trace_id_ce envelope trace_id).2 = envelope := by
  refine ⟨?_, ?_, rfl⟩
  · exact dictSet_find_self envelope "subject" (.str trace_id)
  · intro k hk
    exact dictSet_find_other envelope "subject" k (.str trace_id) hk

/-- C1 (code bug): the `type_to_schema` registry has no entry for the
wire type `ocn.orion.explanation.v1`, so `validate_cloudevent` rejects
every orion explanation event with the `Unknown CloudEvent type`
failure instead of validating it against its schema and returning
`True` as the repository's own tests
(`tests/test_new_events_validate.py`) require. -/
theorem validate_cloudevent_orion_explanation_rejected :
    validate_cloudevent sampleEnv sampleFs "base" (.obj (.obj []))
      "ocn.orion.explanation.v1" St.init =
      (.error (.unexpected (.unknownCloudEventType "ocn.orion.explanation.v1")), St.init) := rfl

/-- C3 counterexample: the cache is consulted before the category is
validated and cache keys are the bare concatenation
`f"{schema_type}/{schema_name}"`, so after a successful load of the
schema name `evil/x` in category `mandates` (first conjunct, a state
reachable through the public API), a call with the bogus category
`mandates/evil` and name `x` hits the same key and returns the cached
document instead of failing with the unknown-category error. -/
theorem get_schema_unknown_category_cache_hit_cex :
    get_schema poisonFs "base" "evil/x" "mandates" St.init = (.ok sampleDoc, poisonSt) ∧
    ("mandates/evil" ≠ "mandates" ∧ "mandates/evil" ≠ "events") ∧
    get_schema poisonFs "base" "x" "mandates/evil" poisonSt = (.ok sampleDoc, poisonSt) :=
  ⟨rfl, ⟨by decide, by decide⟩, rfl⟩

/-- Witness for C2 at concrete inputs. -/
theorem get_schema_get_validator_idempotent_witness :
    (get_schema sampleFs "base" "intent_mandate" "mandates" sampleStOk =
       (.ok sampleDoc, sampleStOk) ∧ sampleStOk.ioReads ≤ St.init.ioReads + 1) ∧
    (get_validator sampleFs "base" "intent_mandate" "mandates" sampleStV =
       (.ok sampleDoc, sampleStV) ∧ sampleStV.ioReads ≤ St.init.ioReads + 1) ∧
    (sampleStErr.schemasCache = St.init.schemasCache ∧
     sampleStErr.validatorsCache = St.init.validatorsCache ∧
     ∃ st₂, get_schema sampleFs "base" "missing" "mandates" sampleStErr =
         (.error (.schemaNotFound "base/common/mandates/missing.schema.json"), st₂) ∧
       st₂.ioReads + St.init.ioReads = sampleStErr.ioReads + sampleStErr.ioReads) :=
  ⟨(get_schema_get_validator_idempotent sampleFs "base" "intent_mandate" "mandates" St.init).1
      sampleDoc sampleStOk rfl,
   (get_schema_get_validator_idempotent sampleFs "base" "intent_mandate" "mandates" St.init).2.1
      sampleDoc sampleStV rfl,
   (get_schema_get_validator_idempotent sampleFs "base" "missing" "mandates" St.init).2.2.1
      (.schemaNotFound "base/common/mandates/missing.schema.json") sampleStErr rfl⟩

/-- Witness for C3 (amended) at a concrete input. -/
theorem get_schema_unknown_category_no_io_witness :
    get_schema sampleFs "base" "intent_mandate" "bogus" St.init =
      (.error (.unknownSchemaType "bogus"), St.init) :=
  get_schema_unknown_category_no_io sampleFs "base" "intent_mandate" "bogus" St.init
    (by decide) (by decide) rfl

/-- Witness for C4 at a concrete input. -/
theorem validate_cloudevent_unknown_type_witness :
    validate_cloudevent sampleEnv sampleFs "base" (.obj (.obj [])) "ocn.unknown.event.v1"
      St.init =
      (.error (.unexpected (.unknownCloudEventType "ocn.unknown.event.v1")), St.init) :=
  validate_cloudevent_unknown_type sampleEnv sampleFs "base" (.obj (.obj [])) (.obj [])
    "ocn.unknown.event.v1" St.init rfl rfl

/-- Witness for C5 at concrete inputs: a conforming and a violating
payload. -/
theorem validate_json_fail_fast_witness :
    validate_json sampleEnv sampleFs "base" (.obj (.obj [])) "intent_mandate" St.init =
      (.ok true, sampleStV) ∧
    validate_json sampleEnv sampleFs "base" (.obj .null) "intent_mandate" St.init =
      (.error (.validationFailed "intent_mandate" "is required"), sampleStV) :=
  ⟨(validate_json_fail_fast sampleEnv sampleFs "base" (.obj (.obj [])) (.obj [])
      "intent_mandate" St.init sampleDoc sampleStV rfl rfl).1 rfl,
   (validate_json_fail_fast sampleEnv sampleFs "base" (.obj .null) .null
      "intent_mandate" St.init sampleDoc sampleStV rfl rfl).2
     ⟨["field"], "is required", ["required"]⟩ [] rfl⟩

/-- Witness for C6 at a concrete unparseable input. -/
theorem malformed_json_uniform_witness :
    validate_json sampleEnv sampleFs "base" (.str "not json") "intent_mandate" St.init =
      (.error (.invalidJson "Expecting value"), St.init) ∧
    validate_cloudevent sampleEnv sampleFs "base" (.str "not json") "ocn.orca.decision.v1" St.init =
      (.error (.invalidJson "Expecting value"), St.init) ∧
    get_validation_errors sampleEnv sampleFs "base" (.str "not json") "intent_mandate" "mandates"
      St.init =
      ([⟨"", "Invalid JSON: " ++ "Expecting value", ""⟩], St.init) :=
  malformed_json_uniform sampleEnv sampleFs "base" "not json" "intent_mandate" "mandates"
    "ocn.orca.decision.v1" St.init "Expecting value" rfl

/-- Witness for C7 at a concrete input. -/
theorem validate_json_iff_no_errors_witness :
    ((validate_json sampleEnv sampleFs "base" (.obj (.obj [])) "intent_mandate" St.init).1 =
        .ok true ↔
      (get_validation_errors sampleEnv sampleFs "base" (.obj (.obj [])) "intent_mandate"
        "mandates" St.init).1 = []) ∧
    (get_validation_errors sampleEnv sampleFs "base" (.obj (.obj [])) "intent_mandate"
      "mandates" St.init).1 =
      (sampleEnv.iterErrors sampleDoc (.obj [])).map (fun v =>
        ⟨String.intercalate "." v.path, v.message, String.intercalate "." v.schemaPath⟩) :=
  validate_json_iff_no_errors sampleEnv sampleFs "base" (.obj (.obj [])) (.obj [])
    "intent_mandate" St.init sampleDoc sampleStV rfl rfl

/-- Witness for C8 at concrete inputs: absent directory, empty
directory, and a directory with one schema file. -/
theorem list_available_schemas_enumerates_witness :
    (list_available_schemas emptyDirsFs "base").1 = [] ∧
    (list_available_schemas emptyDirsFs "base").2 = [] ∧
    (list_available_schemas stockedFs "base").1 = ["intent_mandate.schema.json"].map stem :=
  ⟨(list_available_schemas_enumerates emptyDirsFs "base").1 rfl,
   (list_available_schemas_enumerates emptyDirsFs "base").2.2.2 [] rfl,
   (list_available_schemas_enumerates stockedFs "base").2.1
     ["intent_mandate.schema.json"] rfl⟩

/-- Witness for C9 at a concrete envelope. -/
theorem inject_trace_id_ce_frame_witness :
    Assoc.find (inject_trace_id_ce sampleEnvelope "trace-456").1 "subject" =
      some (.str "trace-456") ∧
    Assoc.find (inject_trace_id_ce sampleEnvelope "trace-456").1 "id" =
      Assoc.find sampleEnvelope "id" ∧
    (inject_trace_id_ce sampleEnvelope "trace-456").2 = sampleEnvelope :=
  ⟨(inject_trace_id_ce_frame sampleEnvelope "trace-456").1,
   (inject_trace_id_ce_frame sampleEnvelope "trace-456").2.1 "id" (by decide),
   (inject_trace_id_ce_frame sampleEnvelope "trace-456").2.2⟩

/-- Witness for C10 at a concrete input whose validator resolution fails
with the unknown-category error. -/
theorem get_validation_errors_total_witness :
    get_validation_errors sampleEnv sampleFs "base" (.obj (.obj [])) "intent_mandate" "bogus"
      St.init =
      ([⟨"", "Validation error: " ++ (CVError.unknownSchemaType "bogus").message, ""⟩],
       St.init) :=
  (get_validation_errors_total sampleEnv sampleFs "base" (.obj (.obj [])) "intent_mandate"
      "bogus" St.init).2.1 (.obj []) (.unknownSchemaType "bogus") St.init rfl rfl
